import Mathlib

/-!
Shallow embedding of the exam engine of `app/services/exam_engine_service.py`
(data model from `app/models/models.py`).  Marks and wall-clock timestamps are
modelled as rationals; machine floats and datetimes do not overflow in any of
the properties below.  Each claim of the specification is stated and settled
against these definitions.
-/

namespace ExamEngine

/- Restore the default reducibility of the rational-number operations so that
concrete runs of the engine can be checked by `decide`. -/
attribute [local semireducible] Rat.add Rat.sub Rat.mul Rat.inv Rat.ofScientific

/-! ### Data model (models.py) -/

inductive PaperStatus where
  | notStarted
  | inProgress
  | submitted
  | autoSubmitted
  | evaluated
  deriving DecidableEq, Repr

inductive ExamStatus where
  | draft
  | scheduled
  | active
  | completed
  | cancelled
  deriving DecidableEq, Repr

inductive Difficulty where
  | easy
  | medium
  | hard
  deriving DecidableEq, Repr

structure Question where
  id : Nat
  correct_answer : String
  marks : ℚ
  negative_marks : ℚ
  difficulty : Difficulty
  deriving DecidableEq, Repr

structure Exam where
  id : Nat
  total_questions : Nat
  duration_minutes : ℤ
  total_marks : ℚ
  passing_marks : ℚ
  start_time : ℚ
  end_time : ℚ
  status : ExamStatus
  max_attempts : Nat
  deriving DecidableEq, Repr

/-- One entry of the frozen `paper_data` snapshot built by `_build_paper_data`. -/
structure PaperQ where
  question_id : Nat
  options_order : List String
  deriving DecidableEq, Repr

structure StudentExamPaper where
  id : Nat
  exam_id : Nat
  student_id : Nat
  paper_data : List PaperQ
  status : PaperStatus
  attempt_number : Nat
  started_at : Option ℚ
  submitted_at : Option ℚ
  /-- `Optional[int]` in the schema, but initialised at paper creation and on
  every timer recompute, so modelled as a plain integer. -/
  time_remaining_seconds : ℤ
  last_activity_at : Option ℚ
  deriving DecidableEq, Repr

structure StudentResponse where
  paper_id : Nat
  question_id : Nat
  selected_answer : Option String
  is_marked_for_review : Bool
  is_correct : Option Bool
  marks_obtained : Option ℚ
  answered_at : Option ℚ
  deriving DecidableEq, Repr

structure DiffScore where
  correct : Nat
  total : Nat
  marks : ℚ
  deriving DecidableEq, Repr

structure DiffScores where
  easy : DiffScore
  medium : DiffScore
  hard : DiffScore
  deriving DecidableEq, Repr

structure Result where
  exam_id : Nat
  student_id : Nat
  paper_id : Nat
  total_questions : Nat
  attempted : Nat
  correct : Nat
  wrong : Nat
  total_marks : ℚ
  marks_obtained : ℚ
  percentage : ℚ
  is_passed : Bool
  rank : Option Nat
  difficulty_wise_score : DiffScores
  evaluated_at : ℚ
  deriving DecidableEq, Repr

/-- The relational store the engine reads and writes.  (The assignment and
session tables are not touched by any claim and are omitted.) -/
structure DB where
  papers : List StudentExamPaper
  responses : List StudentResponse
  results : List Result
  questions : List Question
  deriving DecidableEq, Repr

inductive EngineError where
  | examNotActive
  | examNotStarted
  | examEnded
  | maxAttemptsReached
  | paperNotFound
  | alreadySubmitted
  | questionNotInPaper
  deriving DecidableEq, Repr

/-! ### Elementary helpers -/

/-- The status list checked throughout the service
(`[SUBMITTED, AUTO_SUBMITTED, EVALUATED]`). -/
def isTerminal : PaperStatus → Bool
  | .submitted => true
  | .autoSubmitted => true
  | .evaluated => true
  | _ => false

/-- Python `round(x, 2)` modelled as rounding `x*100` to the nearest integer. -/
def round2 (x : ℚ) : ℚ := (round (x * 100) : ℤ) / 100

/-- Python `int(...)` truncates toward zero. -/
def pyInt (q : ℚ) : ℤ := if 0 ≤ q then ⌊q⌋ else ⌈q⌉

/-- Python `str.strip()`: drop leading and trailing whitespace. -/
def trimChars (cs : List Char) : List Char :=
  ((cs.dropWhile Char.isWhitespace).reverse.dropWhile Char.isWhitespace).reverse

def pyStrip (s : String) : String := ⟨trimChars s.data⟩

/-- Python `str.lower()` (modelled on the character map; the claims only
exercise ASCII answers). -/
def pyLower (s : String) : String := ⟨s.data.map Char.toLower⟩

/-- `_check_answer`: case-insensitive, trimmed comparison
(`correct_answer.strip().lower() == selected.strip().lower()`). -/
def checkAnswer (q : Question) (selected : String) : Bool :=
  pyLower (pyStrip q.correct_answer) == pyLower (pyStrip selected)

/-- Python truthiness of `response.selected_answer`: `None` and the empty
string are both falsy. -/
def truthyStr : Option String → Option String
  | some s => if s = "" then none else some s
  | none => none

/-- The batch question lookup of `_evaluate_paper` (`questions_map.get`). -/
def lookupQuestion (qs : List Question) (qid : Nat) : Option Question :=
  qs.find? (fun q => q.id == qid)

/-! ### Evaluation engine (`_evaluate_paper`, lines 335-433) -/

structure EvalAcc where
  total_marks : ℚ
  correct : Nat
  wrong : Nat
  attempted : Nat
  diff : DiffScores
  deriving DecidableEq, Repr

def DiffScores.update (d : DiffScores) (tier : Difficulty) (f : DiffScore → DiffScore) :
    DiffScores :=
  match tier with
  | .easy => { d with easy := f d.easy }
  | .medium => { d with medium := f d.medium }
  | .hard => { d with hard := f d.hard }

/-- The accumulator updates performed by one iteration of the evaluation loop
(`for response in responses` body, lines 364-391). -/
def evalStep (qs : List Question) (acc : EvalAcc) (r : StudentResponse) : EvalAcc :=
  match lookupQuestion qs r.question_id with
  | none => acc
  | some q =>
    match truthyStr r.selected_answer with
    | some s =>
      let ic := checkAnswer q s
      let acc1 := { acc with attempted := acc.attempted + 1 }
      let acc2 :=
        if ic then
          { acc1 with total_marks := acc1.total_marks + q.marks, correct := acc1.correct + 1 }
        else
          { acc1 with total_marks := acc1.total_marks - q.negative_marks,
                      wrong := acc1.wrong + 1 }
      let d3 := acc2.diff.update q.difficulty (fun ds => { ds with total := ds.total + 1 })
      let acc3 := { acc2 with diff := d3 }
      if ic then
        let d4 := acc3.diff.update q.difficulty
          (fun ds => { ds with correct := ds.correct + 1, marks := ds.marks + q.marks })
        { acc3 with diff := d4 }
      else acc3
    | none => acc

/-- The per-response field updates performed by the same loop iteration. -/
def evalResponse (qs : List Question) (r : StudentResponse) : StudentResponse :=
  match lookupQuestion qs r.question_id with
  | none => r
  | some q =>
    match truthyStr r.selected_answer with
    | some s =>
      let ic := checkAnswer q s
      { r with is_correct := some ic,
               marks_obtained := some (if ic then q.marks else -q.negative_marks) }
    | none => { r with is_correct := none, marks_obtained := some 0 }

def initAcc : EvalAcc :=
  { total_marks := 0, correct := 0, wrong := 0, attempted := 0,
    diff := { easy := ⟨0, 0, 0⟩, medium := ⟨0, 0, 0⟩, hard := ⟨0, 0, 0⟩ } }

/-- The evaluation loop: accumulated tallies together with the updated
response rows. -/
def evaluateCore (qs : List Question) (rs : List StudentResponse) :
    EvalAcc × List StudentResponse :=
  (rs.foldl (evalStep qs) initAcc, rs.map (evalResponse qs))

/-- Construction of the `Result` row (lines 395-413).  `evaluated_at` is the
server default `now()` at insert time. -/
def buildResult (exam : Exam) (paper : StudentExamPaper) (acc : EvalAcc) (now : ℚ) :
    Result :=
  let percentage : ℚ :=
    if exam.total_marks > 0 then acc.total_marks / exam.total_marks * 100 else 0
  { exam_id := paper.exam_id
    student_id := paper.student_id
    paper_id := paper.id
    total_questions := exam.total_questions
    attempted := acc.attempted
    correct := acc.correct
    wrong := acc.wrong
    total_marks := exam.total_marks
    marks_obtained := max 0 acc.total_marks
    percentage := round2 percentage
    is_passed := decide (acc.total_marks ≥ exam.passing_marks)
    rank := none
    difficulty_wise_score := acc.diff
    evaluated_at := now }

/-! ### Rank calculator (`_calculate_ranks`, lines 435-447) -/

/-- The `ORDER BY marks_obtained DESC, evaluated_at ASC` comparison. -/
def rankLe (a b : Result) : Prop :=
  b.marks_obtained < a.marks_obtained ∨
    (a.marks_obtained = b.marks_obtained ∧ a.evaluated_at ≤ b.evaluated_at)

instance : DecidableRel rankLe := fun a b => by
  unfold rankLe; infer_instance

instance : IsTotal Result rankLe where
  total a b := by
    rcases lt_trichotomy a.marks_obtained b.marks_obtained with h | h | h
    · exact Or.inr (Or.inl h)
    · rcases le_total a.evaluated_at b.evaluated_at with h2 | h2
      · exact Or.inl (Or.inr ⟨h, h2⟩)
      · exact Or.inr (Or.inr ⟨h.symm, h2⟩)
    · exact Or.inl (Or.inl h)

instance : IsTrans Result rankLe where
  trans a b c hab hbc := by
    rcases hab with hab | ⟨hab1, hab2⟩
    · rcases hbc with hbc | ⟨hbc1, hbc2⟩
      · exact Or.inl (lt_trans hbc hab)
      · exact Or.inl (hbc1 ▸ hab)
    · rcases hbc with hbc | ⟨hbc1, hbc2⟩
      · exact Or.inl (hab1 ▸ hbc)
      · exact Or.inr ⟨hab1.trans hbc1, le_trans hab2 hbc2⟩

/-- `for rank, result in enumerate(results, 1): result.rank = rank`. -/
def assignRanksFrom (n : Nat) : List Result → List Result
  | [] => []
  | r :: rest => { r with rank := some (n + 1) } :: assignRanksFrom (n + 1) rest

/-- Full recompute of all ranks of one exam's results. -/
def calculateRanks (results : List Result) : List Result :=
  assignRanksFrom 0 (List.insertionSort rankLe results)

/-! ### Store queries and updates -/

/-- Row filter of `_get_existing_paper`. -/
def paperKey (exam_id student_id : Nat) (p : StudentExamPaper) : Bool :=
  p.exam_id == exam_id && p.student_id == student_id

/-- `ORDER BY attempt_number DESC ... first()`: the latest attempt.  Ties are
impossible under the `uq_student_exam_attempt` constraint; the fold keeps the
earlier row on a tie, which makes the query deterministic. -/
def pickLatest (acc : Option StudentExamPaper) (p : StudentExamPaper) :
    Option StudentExamPaper :=
  match acc with
  | none => some p
  | some q => if q.attempt_number < p.attempt_number then some p else some q

def getExistingPaper (db : DB) (exam_id student_id : Nat) : Option StudentExamPaper :=
  (db.papers.filter (paperKey exam_id student_id)).foldl pickLatest none

/-- `_get_attempt_count`: `COUNT(*)` over the same filter. -/
def attemptCount (db : DB) (exam_id student_id : Nat) : Nat :=
  (db.papers.filter (paperKey exam_id student_id)).length

/-- `_get_active_paper`: latest paper, rejected when terminal. -/
def getActivePaper (db : DB) (exam_id student_id : Nat) :
    Except EngineError StudentExamPaper :=
  match getExistingPaper db exam_id student_id with
  | none => .error .paperNotFound
  | some p => if isTerminal p.status then .error .alreadySubmitted else .ok p

/-- `_get_result`: the result row of one paper. -/
def getResult (db : DB) (paper_id : Nat) : Option Result :=
  db.results.find? (fun r => r.paper_id == paper_id)

/-- Persisting a mutated paper row (the ORM flush of an updated object). -/
def dbUpdatePaper (db : DB) (p : StudentExamPaper) : DB :=
  { db with papers := db.papers.map (fun q => if q.id == p.id then p else q) }

/-! ### Timer authority (`_update_time_remaining`, lines 555-571) -/

def updateTimeRemaining (paper : StudentExamPaper) (exam : Exam) (now : ℚ) :
    StudentExamPaper :=
  match paper.started_at with
  | some started =>
    if paper.status = .inProgress then
      let elapsed := now - started
      let total_seconds : ℚ := (exam.duration_minutes : ℚ) * 60
      let remaining : ℤ := max 0 (pyInt (total_seconds - elapsed))
      { paper with time_remaining_seconds := remaining }
    else paper
  | none => paper

/-! ### Exam lifecycle clock (`_validate_exam_available`, lines 458-504) -/

def advanceExamStatus (exam : Exam) (now : ℚ) : Exam :=
  match exam.status with
  | .draft | .scheduled =>
    if exam.start_time ≤ now ∧ now < exam.end_time then { exam with status := .active }
    else if exam.end_time ≤ now then { exam with status := .completed }
    else exam
  | .active =>
    if exam.end_time ≤ now then { exam with status := .completed } else exam
  | _ => exam

/-- The window checks of `_validate_exam_available` after the lazy status
advance. -/
def validateWindow (exam : Exam) (now : ℚ) : Except EngineError Exam :=
  if exam.status ≠ .scheduled ∧ exam.status ≠ .active then .error .examNotActive
  else if now < exam.start_time then .error .examNotStarted
  else if exam.end_time < now then .error .examEnded
  else .ok exam

/-- Validation performed before paper generation.  The open-enrollment
auto-assignment touches only the (unmodelled) assignment table. -/
def validateExamAvailable (exam0 : Exam) (now : ℚ) : Except EngineError Exam :=
  validateWindow (advanceExamStatus exam0 now) now

/-! ### Paper generation (`generate_paper`, lines 30-114) -/

/-- Paper creation (lines 87-109): the new row plus one empty response row per
paper question.  `freshData` is the randomized snapshot produced by
`_select_questions` + `_build_paper_data` (the randomness oracle), `freshId`
the new primary key. -/
def createPaper (db : DB) (exam : Exam) (student_id : Nat) (freshData : List PaperQ)
    (freshId : Nat) (cnt : Nat) : StudentExamPaper × DB :=
  let paper : StudentExamPaper :=
    { id := freshId
      exam_id := exam.id
      student_id := student_id
      paper_data := freshData
      status := .notStarted
      attempt_number := cnt + 1
      started_at := none
      submitted_at := none
      time_remaining_seconds := exam.duration_minutes * 60
      last_activity_at := none }
  let rs : List StudentResponse := freshData.map (fun q =>
    { paper_id := freshId
      question_id := q.question_id
      selected_answer := none
      is_marked_for_review := false
      is_correct := none
      marks_obtained := none
      answered_at := none })
  (paper, { db with papers := db.papers ++ [paper], responses := db.responses ++ rs })

def generatePaper (db : DB) (exam0 : Exam) (student_id : Nat) (now : ℚ)
    (freshData : List PaperQ) (freshId : Nat) :
    Except EngineError (StudentExamPaper × DB) :=
  match validateExamAvailable exam0 now with
  | .error e => .error e
  | .ok exam =>
    match getExistingPaper db exam.id student_id with
    | some existing =>
      if isTerminal existing.status then
        let cnt := attemptCount db exam.id student_id
        if exam.max_attempts ≤ cnt then .error .maxAttemptsReached
        else
          -- the second attempt-count check (lines 66-72) repeats the same
          -- comparison with the same values and cannot fire here
          .ok (createPaper db exam student_id freshData freshId cnt)
      else .ok (existing, db)
    | none =>
      let cnt := attemptCount db exam.id student_id
      if exam.max_attempts ≤ cnt then .error .maxAttemptsReached
      else .ok (createPaper db exam student_id freshData freshId cnt)

/-! ### Evaluation against the store (`_evaluate_paper`) -/

/-- Evaluate one paper: update its response rows, insert the `Result`, set the
paper status to EVALUATED, recompute all ranks of the exam, and return the
refreshed result row. -/
def evaluatePaperDB (db : DB) (exam : Exam) (paper : StudentExamPaper) (now : ℚ) :
    Result × DB :=
  let rs := db.responses.filter (fun r => r.paper_id == paper.id)
  let acc := (evaluateCore db.questions rs).1
  let result := buildResult exam paper acc now
  let db1 : DB :=
    { db with
      responses := db.responses.map
        (fun r => if r.paper_id == paper.id then evalResponse db.questions r else r)
      results := db.results ++ [result]
      papers := db.papers.map
        (fun q => if q.id == paper.id then { paper with status := .evaluated } else q) }
  let ranked := calculateRanks (db1.results.filter (fun r => r.exam_id == exam.id))
  let db2 : DB :=
    { db1 with results := db1.results.filter (fun r => r.exam_id != exam.id) ++ ranked }
  let refreshed :=
    match db2.results.find? (fun r => r.paper_id == paper.id && r.exam_id == exam.id) with
    | some r => r
    | none => result
  (refreshed, db2)

/-! ### Submission paths (`submit_exam`, `auto_submit`, `get_paper`) -/

inductive ViewOut where
  | paperView (p : StudentExamPaper)
  | resultView (r : Result)
  deriving DecidableEq, Repr

/-- `auto_submit` (lines 308-331). -/
def autoSubmit (db : DB) (exam : Exam) (student_id : Nat) (now : ℚ) :
    Except EngineError (ViewOut × DB) :=
  match getExistingPaper db exam.id student_id with
  | none => .error .paperNotFound
  | some paper =>
    if isTerminal paper.status then
      match getResult db paper.id with
      | some r => .ok (.resultView r, db)
      | none => .error .alreadySubmitted
    else
      let paper1 :=
        { paper with
          status := .autoSubmitted
          submitted_at := some now
          time_remaining_seconds := 0 }
      let db1 := dbUpdatePaper db paper1
      let rd := evaluatePaperDB db1 exam paper1 now
      .ok (.resultView rd.1, rd.2)

/-- `submit_exam` (lines 289-304): manual submission. -/
def submitExam (db : DB) (exam : Exam) (student_id : Nat) (now : ℚ) :
    Except EngineError (Result × DB) :=
  match getActivePaper db exam.id student_id with
  | .error e => .error e
  | .ok paper =>
    let paper1 := { paper with status := .submitted, submitted_at := some now }
    let db1 := dbUpdatePaper db paper1
    .ok (evaluatePaperDB db1 exam paper1 now)

/-- `get_paper` (lines 198-226): resume, with expiry auto-submit. -/
def getPaper (db : DB) (exam : Exam) (student_id : Nat) (now : ℚ) :
    Except EngineError (ViewOut × DB) :=
  match getExistingPaper db exam.id student_id with
  | none => .error .paperNotFound
  | some paper =>
    if isTerminal paper.status then .error .alreadySubmitted
    else
      let paper1 := updateTimeRemaining paper exam now
      let db1 := dbUpdatePaper db paper1
      if paper1.time_remaining_seconds ≤ 0 then autoSubmit db1 exam student_id now
      else .ok (.paperView paper1, db1)

/-! ### Answer ledger (`save_answer`, `save_all_answers`, lines 230-285) -/

inductive SaveOut where
  | saved (question_id : Nat) (time_remaining_seconds : ℤ)
  | autoSubmitted
  deriving DecidableEq, Repr

def findResponse (db : DB) (paper_id question_id : Nat) : Option StudentResponse :=
  db.responses.find? (fun r => r.paper_id == paper_id && r.question_id == question_id)

def saveAnswer (db : DB) (exam : Exam) (student_id : Nat) (now : ℚ)
    (question_id : Nat) (selected : Option String) (review : Bool) :
    Except EngineError (SaveOut × DB) :=
  match getActivePaper db exam.id student_id with
  | .error e => .error e
  | .ok paper =>
    let paper1 := updateTimeRemaining paper exam now
    let db1 := dbUpdatePaper db paper1
    if paper1.time_remaining_seconds ≤ 0 then
      match autoSubmit db1 exam student_id now with
      | .ok vd => .ok (.autoSubmitted, vd.2)
      | .error e => .error e
    else
      match findResponse db1 paper1.id question_id with
      | none => .error .questionNotInPaper
      | some _ =>
        let db2 : DB :=
          { db1 with responses := db1.responses.map (fun r =>
              if r.paper_id == paper1.id && r.question_id == question_id then
                { r with selected_answer := selected, is_marked_for_review := review,
                         answered_at := some now }
              else r) }
        let paper2 := { paper1 with last_activity_at := some now }
        let db3 := dbUpdatePaper db2 paper2
        .ok (.saved question_id paper2.time_remaining_seconds, db3)

inductive SaveAllOut where
  | saved (saved_count : Nat) (time_remaining_seconds : ℤ)
  | autoSubmitted
  deriving DecidableEq, Repr

structure AnswerIn where
  question_id : Nat
  selected_answer : Option String
  is_marked_for_review : Bool
  deriving DecidableEq, Repr

def saveAllStep (paper_id : Nat) (now : ℚ) (st : DB × Nat) (a : AnswerIn) : DB × Nat :=
  match findResponse st.1 paper_id a.question_id with
  | none => st
  | some _ =>
    ({ st.1 with responses := st.1.responses.map (fun r =>
        if r.paper_id == paper_id && r.question_id == a.question_id then
          { r with selected_answer := a.selected_answer,
                   is_marked_for_review := a.is_marked_for_review,
                   answered_at := some now }
        else r) },
     st.2 + 1)

def saveAllAnswers (db : DB) (exam : Exam) (student_id : Nat) (now : ℚ)
    (answers : List AnswerIn) : Except EngineError (SaveAllOut × DB) :=
  match getActivePaper db exam.id student_id with
  | .error e => .error e
  | .ok paper =>
    let paper1 := updateTimeRemaining paper exam now
    let db1 := dbUpdatePaper db paper1
    if paper1.time_remaining_seconds ≤ 0 then
      match autoSubmit db1 exam student_id now with
      | .ok vd => .ok (.autoSubmitted, vd.2)
      | .error e => .error e
    else
      let st := answers.foldl (saveAllStep paper1.id now) (db1, 0)
      let paper2 := { paper1 with last_activity_at := some now }
      let db3 := dbUpdatePaper st.1 paper2
      .ok (.saved st.2 paper2.time_remaining_seconds, db3)

/-! ### Supporting lemmas -/

theorem pyInt_mono {a b : ℚ} (h : a ≤ b) : pyInt a ≤ pyInt b := by
  unfold pyInt
  by_cases ha : 0 ≤ a
  · rw [if_pos ha, if_pos (ha.trans h)]
    exact Int.floor_le_floor h
  · by_cases hb : 0 ≤ b
    · rw [if_neg ha, if_pos hb]
      have h1 : ⌈a⌉ ≤ 0 := Int.ceil_le.mpr (by exact_mod_cast le_of_not_le ha)
      exact le_trans h1 (Int.floor_nonneg.mpr hb)
    · rw [if_neg ha, if_neg hb]
      exact Int.ceil_le_ceil h

theorem foldl_pickLatest_mem :
    ∀ (l : List StudentExamPaper) (acc : Option StudentExamPaper) (p : StudentExamPaper),
      l.foldl pickLatest acc = some p → acc = some p ∨ p ∈ l := by
  intro l
  induction l with
  | nil => intro acc p h; exact Or.inl h
  | cons x xs ih =>
    intro acc p h
    rcases ih (pickLatest acc x) p h with h2 | h2
    · cases acc with
      | none =>
        have hx : x = p := by simpa [pickLatest] using h2
        exact Or.inr (hx ▸ List.mem_cons_self x xs)
      | some q =>
        simp only [pickLatest] at h2
        by_cases hc : q.attempt_number < x.attempt_number
        · rw [if_pos hc] at h2
          have hx : x = p := by simpa using h2
          exact Or.inr (hx ▸ List.mem_cons_self x xs)
        · rw [if_neg hc] at h2
          exact Or.inl h2
    · exact Or.inr (List.mem_cons_of_mem x h2)

theorem getExistingPaper_mem {db : DB} {e s : Nat} {p : StudentExamPaper}
    (h : getExistingPaper db e s = some p) :
    p ∈ db.papers ∧ p.exam_id = e ∧ p.student_id = s := by
  unfold getExistingPaper at h
  rcases foldl_pickLatest_mem _ _ _ h with h2 | h2
  · exact absurd h2 (by simp)
  · have hm := List.mem_filter.mp h2
    refine ⟨hm.1, ?_, ?_⟩
    · have := hm.2
      unfold paperKey at this
      simp only [Bool.and_eq_true, beq_iff_eq] at this
      exact this.1
    · have := hm.2
      unfold paperKey at this
      simp only [Bool.and_eq_true, beq_iff_eq] at this
      exact this.2

theorem filter_map_of_pointwise {α : Type} (P : α → Bool) (f : α → α) :
    ∀ l : List α, (∀ x ∈ l, P (f x) = P x) → (l.map f).filter P = (l.filter P).map f := by
  intro l
  induction l with
  | nil => intro _; rfl
  | cons x xs ih =>
    intro h
    have hx := h x (List.mem_cons_self x xs)
    have hrest := ih (fun y hy => h y (List.mem_cons_of_mem x hy))
    by_cases hp : P x = true
    · simp [List.filter_cons, hp, hx.trans hp, hrest]
    · have hp2 : P x = false := Bool.eq_false_iff.mpr hp
      simp [List.filter_cons, hp2, hx.trans hp2, hrest]

theorem foldl_pickLatest_map (f : StudentExamPaper → StudentExamPaper) :
    ∀ (l : List StudentExamPaper) (acc : Option StudentExamPaper),
      (∀ x ∈ l, (f x).attempt_number = x.attempt_number) →
      (∀ y, acc = some y → (f y).attempt_number = y.attempt_number) →
      (l.map f).foldl pickLatest (acc.map f) = (l.foldl pickLatest acc).map f := by
  intro l
  induction l with
  | nil => intro acc _ _; rfl
  | cons x xs ih =>
    intro acc hl hacc
    have hx := hl x (List.mem_cons_self x xs)
    have step : pickLatest (acc.map f) (f x) = (pickLatest acc x).map f := by
      cases acc with
      | none => rfl
      | some y =>
        have hy := hacc y rfl
        by_cases hc : y.attempt_number < x.attempt_number
        · simp [pickLatest, hy, hx, hc]
        · simp [pickLatest, hy, hx, hc]
    rw [List.map_cons, List.foldl_cons, List.foldl_cons, step]
    refine ih (pickLatest acc x) (fun y hy => hl y (List.mem_cons_of_mem x hy)) ?_
    intro y hy
    cases acc with
    | none =>
      have hxy : x = y := by simpa [pickLatest] using hy
      exact hxy ▸ hx
    | some q =>
      simp only [pickLatest] at hy
      by_cases hc : q.attempt_number < x.attempt_number
      · rw [if_pos hc] at hy
        have hxy : x = y := by simpa using hy
        exact hxy ▸ hx
      · rw [if_neg hc] at hy
        have hqy : q = y := by simpa using hy
        exact hqy ▸ hacc q rfl

theorem getExistingPaper_update {db : DB} {e s : Nat} {p p' : StudentExamPaper}
    (hp : getExistingPaper db e s = some p)
    (hkey : ∀ q ∈ db.papers, q.id = p.id → q = p)
    (hid : p'.id = p.id) (hex : p'.exam_id = p.exam_id) (hst : p'.student_id = p.student_id)
    (han : p'.attempt_number = p.attempt_number) :
    getExistingPaper (dbUpdatePaper db p') e s = some p' := by
  obtain ⟨hmem, hpe, hps⟩ := getExistingPaper_mem hp
  unfold getExistingPaper dbUpdatePaper
  have hfun : (fun q => if q.id == p'.id then p' else q)
      = (fun q => if q.id == p.id then p' else q) := by
    funext q; rw [hid]
  rw [hfun]
  have hkeyP : paperKey e s p = true := by
    unfold paperKey; rw [hpe, hps]; simp
  have hkeyP' : paperKey e s p' = true := by
    unfold paperKey; rw [hex, hst, hpe, hps]; simp
  have hpoint : ∀ x ∈ db.papers,
      paperKey e s (if x.id == p.id then p' else x) = paperKey e s x := by
    intro x hx
    by_cases hxi : x.id = p.id
    · have hxp : x = p := hkey x hx hxi
      rw [if_pos (by simp [hxi])]
      rw [hxp, hkeyP, hkeyP']
    · rw [if_neg (by simp [hxi])]
  rw [filter_map_of_pointwise _ _ _ hpoint]
  have hatt : ∀ x ∈ db.papers.filter (paperKey e s),
      ((fun q => if q.id == p.id then p' else q) x).attempt_number = x.attempt_number := by
    intro x hx
    by_cases hxi : x.id = p.id
    · have hxp : x = p := hkey x (List.mem_filter.mp hx).1 hxi
      simp only [hxi, beq_self_eq_true, if_pos]
      rw [hxp, han]
    · simp [hxi]
  have hmap := foldl_pickLatest_map (fun q => if q.id == p.id then p' else q)
    (db.papers.filter (paperKey e s)) none hatt (by intro y hy; cases hy)
  have hnone : Option.map (fun q => if q.id == p.id then p' else q)
      (none : Option StudentExamPaper) = none := rfl
  rw [hnone] at hmap
  rw [hmap]
  unfold getExistingPaper at hp
  rw [hp]
  simp

theorem hkey_update {db : DB} {p p' : StudentExamPaper}
    (hkey : ∀ q ∈ db.papers, q.id = p.id → q = p) (hid : p'.id = p.id) :
    ∀ q ∈ (dbUpdatePaper db p').papers, q.id = p'.id → q = p' := by
  intro q hq hqid
  unfold dbUpdatePaper at hq
  obtain ⟨x, hx, hfx⟩ := List.mem_map.mp hq
  by_cases hxi : x.id = p'.id
  · rw [← hfx, if_pos (by simp [hxi])]
  · rw [← hfx, if_neg (by simp [hxi])] at hqid ⊢
    exact absurd (hkey x hx (hqid.trans hid)) (fun hxp => hxi (by rw [hxp, ← hid]))

theorem find_replace {l : List StudentExamPaper} {p pN : StudentExamPaper}
    (hmem : p ∈ l) (hid : pN.id = p.id) :
    (l.map (fun q => if q.id == p.id then pN else q)).find? (fun q => q.id == p.id)
      = some pN := by
  induction l with
  | nil => cases hmem
  | cons x xs ih =>
    by_cases hx : x.id = p.id
    · rw [List.map_cons, if_pos (by simp [hx])]
      rw [List.find?_cons_of_pos _ (by simp [hid])]
    · rw [List.map_cons, if_neg (by simp [hx])]
      rw [List.find?_cons_of_neg _ (by simp [hx])]
      have hpm : p ∈ xs := by
        rcases List.mem_cons.mp hmem with h | h
        · exact absurd (congrArg StudentExamPaper.id h.symm) hx
        · exact h
      exact ih hpm

theorem map_replace_compose (l : List StudentExamPaper) (p p1 p2 : StudentExamPaper)
    (h1 : p1.id = p.id) :
    (l.map (fun q => if q.id == p.id then p1 else q)).map
        (fun q => if q.id == p1.id then p2 else q)
      = l.map (fun q => if q.id == p.id then p2 else q) := by
  induction l with
  | nil => rfl
  | cons x xs ih =>
    simp only [List.map_cons, ih]
    congr 1
    by_cases hx : (x.id == p.id) = true
    · rw [if_pos hx, if_pos (by simp [h1] : (p1.id == p1.id) = true), if_pos hx]
    · have hx2 : ¬(x.id == p1.id) = true := by
        intro hc
        rw [h1] at hc
        exact hx hc
      rw [if_neg hx, if_neg hx2, if_neg hx]

/-! ### Lemmas about the evaluation fold -/

/-- The score contribution of one response row. -/
def contribOf (qs : List Question) (r : StudentResponse) : ℚ :=
  match lookupQuestion qs r.question_id, truthyStr r.selected_answer with
  | some q, some s => if checkAnswer q s then q.marks else -q.negative_marks
  | _, _ => 0

/-- The raw (un-floored) total score of a response list. -/
def rawScore (qs : List Question) : List StudentResponse → ℚ
  | [] => 0
  | r :: rest => contribOf qs r + rawScore qs rest

/-- Whether a response is counted as attempted: its question is found and its
selected answer is truthy. -/
def countsAttempted (qs : List Question) (r : StudentResponse) : Bool :=
  (lookupQuestion qs r.question_id).isSome && (truthyStr r.selected_answer).isSome

theorem evalStep_total (qs : List Question) (acc : EvalAcc) (r : StudentResponse) :
    (evalStep qs acc r).total_marks = acc.total_marks + contribOf qs r := by
  unfold evalStep contribOf
  rcases hq : lookupQuestion qs r.question_id with _ | q
  · simp
  · rcases ht : truthyStr r.selected_answer with _ | s
    · simp
    · by_cases hic : checkAnswer q s
      · simp [hq, ht, hic]
      · simp [hq, ht, hic]; ring

theorem evalStep_attempted (qs : List Question) (acc : EvalAcc) (r : StudentResponse) :
    (evalStep qs acc r).attempted
      = acc.attempted + (if countsAttempted qs r then 1 else 0) := by
  unfold evalStep countsAttempted
  rcases hq : lookupQuestion qs r.question_id with _ | q
  · simp
  · rcases ht : truthyStr r.selected_answer with _ | s
    · simp
    · by_cases hic : checkAnswer q s
      · simp [hic]
      · simp [hic]

theorem evalStep_split (qs : List Question) (acc : EvalAcc) (r : StudentResponse)
    (h : acc.attempted = acc.correct + acc.wrong) :
    (evalStep qs acc r).attempted = (evalStep qs acc r).correct + (evalStep qs acc r).wrong := by
  unfold evalStep
  rcases hq : lookupQuestion qs r.question_id with _ | q
  · simpa using h
  · rcases ht : truthyStr r.selected_answer with _ | s
    · simpa using h
    · by_cases hic : checkAnswer q s
      · simp [hic]; omega
      · simp [hic]; omega

theorem foldl_evalStep_total (qs : List Question) :
    ∀ (rs : List StudentResponse) (acc : EvalAcc),
      (rs.foldl (evalStep qs) acc).total_marks = acc.total_marks + rawScore qs rs := by
  intro rs
  induction rs with
  | nil => intro acc; simp [rawScore]
  | cons r rest ih =>
    intro acc
    rw [List.foldl_cons, ih, evalStep_total]
    simp only [rawScore]
    ring

theorem foldl_evalStep_attempted (qs : List Question) :
    ∀ (rs : List StudentResponse) (acc : EvalAcc),
      (rs.foldl (evalStep qs) acc).attempted
        = acc.attempted + (rs.filter (countsAttempted qs)).length := by
  intro rs
  induction rs with
  | nil => intro acc; simp
  | cons r rest ih =>
    intro acc
    rw [List.foldl_cons, ih, evalStep_attempted]
    by_cases hc : countsAttempted qs r
    · simp [List.filter_cons, hc]; omega
    · have hc2 : countsAttempted qs r = false := Bool.eq_false_iff.mpr hc
      simp [List.filter_cons, hc2]

theorem foldl_evalStep_split (qs : List Question) :
    ∀ (rs : List StudentResponse) (acc : EvalAcc),
      acc.attempted = acc.correct + acc.wrong →
      (rs.foldl (evalStep qs) acc).attempted
        = (rs.foldl (evalStep qs) acc).correct + (rs.foldl (evalStep qs) acc).wrong := by
  intro rs
  induction rs with
  | nil => intro acc h; simpa using h
  | cons r rest ih =>
    intro acc h
    rw [List.foldl_cons]
    exact ih _ (evalStep_split qs acc r h)

theorem evalStep_skip {qs : List Question} {r : StudentResponse}
    (h : lookupQuestion qs r.question_id = none) (acc : EvalAcc) :
    evalStep qs acc r = acc := by
  unfold evalStep
  rw [h]

theorem evalResponse_skip {qs : List Question} {r : StudentResponse}
    (h : lookupQuestion qs r.question_id = none) :
    evalResponse qs r = r := by
  unfold evalResponse
  rw [h]

/-! ### Lemmas about rank assignment -/

theorem assignRanksFrom_map_rank :
    ∀ (n : Nat) (l : List Result),
      (assignRanksFrom n l).map (fun r => r.rank) = (List.range' (n + 1) l.length).map some := by
  intro n l
  induction l generalizing n with
  | nil => rfl
  | cons r rest ih =>
    simp only [assignRanksFrom, List.map_cons, List.length_cons, List.range'_succ]
    rw [ih (n + 1)]

theorem mem_assignRanksFrom :
    ∀ {n : Nat} {l : List Result} {b : Result}, b ∈ assignRanksFrom n l →
      ∃ a ∈ l, ∃ k, b = { a with rank := some k } := by
  intro n l
  induction l generalizing n with
  | nil => intro b h; cases h
  | cons r rest ih =>
    intro b h
    rcases List.mem_cons.mp h with h | h
    · exact ⟨r, List.mem_cons_self r rest, n + 1, h⟩
    · obtain ⟨a, ha, k, hb⟩ := ih h
      exact ⟨a, List.mem_cons_of_mem r ha, k, hb⟩

theorem rankLe_rank_update (a b : Result) (x y : Option Nat) :
    rankLe { a with rank := x } { b with rank := y } ↔ rankLe a b := Iff.rfl

theorem pairwise_assignRanksFrom :
    ∀ (n : Nat) {l : List Result}, l.Pairwise rankLe →
      (assignRanksFrom n l).Pairwise rankLe := by
  intro n l
  induction l generalizing n with
  | nil => intro _; exact List.Pairwise.nil
  | cons r rest ih =>
    intro h
    rcases List.pairwise_cons.mp h with ⟨hr, hrest⟩
    refine List.pairwise_cons.mpr ⟨?_, ih (n + 1) hrest⟩
    intro b hb
    obtain ⟨a, ha, k, rfl⟩ := mem_assignRanksFrom hb
    exact (rankLe_rank_update r a (some (n + 1)) (some k)).mpr (hr a ha)

theorem assignRanksFrom_idem :
    ∀ (n : Nat) (l : List Result),
      assignRanksFrom n (assignRanksFrom n l) = assignRanksFrom n l := by
  intro n l
  induction l generalizing n with
  | nil => rfl
  | cons r rest ih =>
    simp only [assignRanksFrom]
    rw [ih (n + 1)]

theorem calculateRanks_idem (rs : List Result) :
    calculateRanks (calculateRanks rs) = calculateRanks rs := by
  unfold calculateRanks
  have hs : List.Sorted rankLe (List.insertionSort rankLe rs) :=
    List.sorted_insertionSort rankLe rs
  have hs2 : List.Sorted rankLe (assignRanksFrom 0 (List.insertionSort rankLe rs)) :=
    pairwise_assignRanksFrom 0 hs
  rw [List.Sorted.insertionSort_eq hs2, assignRanksFrom_idem]

/-! ### Claim C3 -/

/-- C3: for an IN_PROGRESS paper with a start time, the timer recompute sets
`time_remaining_seconds` to `max 0 (duration_seconds − (now − started_at))`
(as an integer); the new value is independent of any previously stored value;
and the remaining time is monotonically non-increasing across successive
recomputes. -/
theorem C3_timer_recompute (exam : Exam) (p : StudentExamPaper) (st : ℚ)
    (hs : p.status = PaperStatus.inProgress) (ht : p.started_at = some st) :
    (∀ now : ℚ, (updateTimeRemaining p exam now).time_remaining_seconds
        = max 0 (pyInt ((exam.duration_minutes : ℚ) * 60 - (now - st)))) ∧
    (∀ (v : ℤ) (now : ℚ),
        updateTimeRemaining { p with time_remaining_seconds := v } exam now
          = updateTimeRemaining p exam now) ∧
    (∀ now1 now2 : ℚ, now1 ≤ now2 →
        (updateTimeRemaining p exam now2).time_remaining_seconds
          ≤ (updateTimeRemaining p exam now1).time_remaining_seconds) := by
  obtain ⟨pid, pex, psid, pdata, pstat, patt, pstart, psub, ptr, pact⟩ := p
  simp only at hs ht
  subst hs
  subst ht
  refine ⟨?_, ?_, ?_⟩
  · intro now
    simp [updateTimeRemaining]
  · intro v now
    simp [updateTimeRemaining]
  · intro now1 now2 h
    simp only [updateTimeRemaining]
    exact max_le_max le_rfl (pyInt_mono (by linarith))

def timerExam : Exam :=
  { id := 1, total_questions := 1, duration_minutes := 1, total_marks := 1, passing_marks := 1,
    start_time := 0, end_time := 1000, status := .active, max_attempts := 1 }

def timerPaper : StudentExamPaper :=
  { id := 1, exam_id := 1, student_id := 7, paper_data := [], status := .inProgress,
    attempt_number := 1, started_at := some 0, submitted_at := none,
    time_remaining_seconds := 60, last_activity_at := none }

/-- Witness for C3 at a concrete paper: the recompute formula at `now = 10`
and monotonicity between `now = 10` and `now = 45`. -/
theorem C3_timer_recompute_witness :
    (updateTimeRemaining timerPaper timerExam 10).time_remaining_seconds
      = max 0 (pyInt ((timerExam.duration_minutes : ℚ) * 60 - (10 - 0))) ∧
    (updateTimeRemaining timerPaper timerExam 45).time_remaining_seconds
      ≤ (updateTimeRemaining timerPaper timerExam 10).time_remaining_seconds :=
  ⟨(C3_timer_recompute timerExam timerPaper 0 rfl rfl).1 10,
   (C3_timer_recompute timerExam timerPaper 0 rfl rfl).2.2 10 45 (by norm_num)⟩

/-! ### Claim C8 -/

def rankSample (pid : Nat) (m t : ℚ) : Result :=
  { exam_id := 5, student_id := pid, paper_id := pid, total_questions := 3, attempted := 3,
    correct := 2, wrong := 1, total_marks := 100, marks_obtained := m, percentage := m,
    is_passed := true, rank := none,
    difficulty_wise_score := ⟨⟨0, 0, 0⟩, ⟨0, 0, 0⟩, ⟨0, 0, 0⟩⟩, evaluated_at := t }

/-- C8: the rank calculator assigns ranks 1..N in the order sorted by
marks descending with ties broken by earlier `evaluated_at`; re-running it is
an idempotent full recompute; and on marks {80, 80, 60} the two 80s rank 1
and 2 by ascending `evaluated_at` and the 60 ranks 3. -/
theorem C8_rank_calculator :
    (∀ rs : List Result,
        (calculateRanks rs).map (fun r => r.rank) = (List.range' 1 rs.length).map some) ∧
    (∀ rs : List Result, List.Sorted rankLe (calculateRanks rs)) ∧
    (∀ rs : List Result, calculateRanks (calculateRanks rs) = calculateRanks rs) ∧
    calculateRanks [rankSample 3 60 5, rankSample 2 80 20, rankSample 1 80 10]
      = [{ rankSample 1 80 10 with rank := some 1 },
         { rankSample 2 80 20 with rank := some 2 },
         { rankSample 3 60 5 with rank := some 3 }] := by
  refine ⟨?_, ?_, calculateRanks_idem, ?_⟩
  · intro rs
    unfold calculateRanks
    rw [assignRanksFrom_map_rank]
    simp only [Nat.zero_add]
    rw [(List.perm_insertionSort rankLe rs).length_eq]
  · intro rs
    exact pairwise_assignRanksFrom 0 (List.sorted_insertionSort rankLe rs)
  · decide

/-! ### Claim C10 -/

/-- C10: every evaluation satisfies `attempted = correct + wrong`, and a
response whose question id is not found among the live question records is
skipped entirely: it contributes to none of the tallies (including the
per-difficulty scores carried in the accumulator) and its `is_correct` and
`marks_obtained` fields are left unchanged. -/
theorem C10_attempted_partition :
    (∀ (qs : List Question) (rs : List StudentResponse),
        (evaluateCore qs rs).1.attempted
          = (evaluateCore qs rs).1.correct + (evaluateCore qs rs).1.wrong) ∧
    (∀ (qs : List Question) (rs1 rs2 : List StudentResponse) (r : StudentResponse),
        lookupQuestion qs r.question_id = none →
        (evaluateCore qs (rs1 ++ r :: rs2)).1 = (evaluateCore qs (rs1 ++ rs2)).1 ∧
        evalResponse qs r = r ∧
        (evaluateCore qs (rs1 ++ r :: rs2)).2
          = rs1.map (evalResponse qs) ++ r :: rs2.map (evalResponse qs)) := by
  constructor
  · intro qs rs
    exact foldl_evalStep_split qs rs initAcc rfl
  · intro qs rs1 rs2 r h
    refine ⟨?_, evalResponse_skip h, ?_⟩
    · show (rs1 ++ r :: rs2).foldl (evalStep qs) initAcc
        = (rs1 ++ rs2).foldl (evalStep qs) initAcc
      rw [List.foldl_append, List.foldl_append, List.foldl_cons, evalStep_skip h]
    · show (rs1 ++ r :: rs2).map (evalResponse qs) = _
      rw [List.map_append, List.map_cons, evalResponse_skip h]

def evalSampleQ : Question := ⟨1, "a", 2, 1, .easy⟩

def evalSampleHit : StudentResponse := ⟨10, 1, some "a", false, none, none, none⟩

/-- Response pointing at a question id absent from the live records. -/
def evalSampleOrphan : StudentResponse := ⟨10, 99, some "b", false, none, none, none⟩

/-- Witness for C10: an orphan response with a selected answer contributes
nothing and is returned unchanged. -/
theorem C10_attempted_partition_witness :
    (evaluateCore [evalSampleQ] ([evalSampleHit] ++ evalSampleOrphan :: [])).1
      = (evaluateCore [evalSampleQ] ([evalSampleHit] ++ [])).1 ∧
    evalResponse [evalSampleQ] evalSampleOrphan = evalSampleOrphan ∧
    (evaluateCore [evalSampleQ] ([evalSampleHit] ++ evalSampleOrphan :: [])).2
      = [evalSampleHit].map (evalResponse [evalSampleQ])
        ++ evalSampleOrphan :: ([] : List StudentResponse).map (evalResponse [evalSampleQ]) :=
  C10_attempted_partition.2 [evalSampleQ] [evalSampleHit] [] evalSampleOrphan (by decide)

/-! ### Claim C5 -/

/-- Response carrying the non-null but empty (Python-falsy) answer. -/
def evalSampleEmpty : StudentResponse := ⟨10, 1, some "", false, none, none, none⟩

/-- Response with a null selected answer. -/
def evalSampleNull : StudentResponse := ⟨10, 1, none, false, none, none, none⟩

/-- Response with a truthy, mismatching answer on question 1. -/
def evalSampleOrphanFix : StudentResponse := ⟨10, 1, some "b", false, none, none, none⟩

/-- C5 is false as stated: a response whose selected answer is the non-null
empty string is never compared — the code's truthiness test treats it like a
null answer, so it is left with null correctness and zero marks and is not
counted as attempted or wrong, although the claim requires a mismatching
non-null answer to be marked incorrect and penalised. -/
theorem C5_counterexample :
    evalSampleEmpty.selected_answer = some "" ∧
    checkAnswer evalSampleQ "" = false ∧
    (evalResponse [evalSampleQ] evalSampleEmpty).is_correct = none ∧
    (evalResponse [evalSampleQ] evalSampleEmpty).marks_obtained = some 0 ∧
    (evaluateCore [evalSampleQ] [evalSampleEmpty]).1.attempted = 0 ∧
    (evaluateCore [evalSampleQ] [evalSampleEmpty]).1.wrong = 0 := by
  decide

/-- C5 (amended): a response whose selected answer is non-null and non-empty
is compared trimmed and case-insensitively against the live question's correct
answer — on a match it is marked correct and awarded `+marks`, on a mismatch
marked incorrect and awarded `−negative_marks`; a response whose selected
answer is null or empty (Python-falsy) keeps null correctness, gets 0 marks,
and is not counted as attempted. -/
theorem C5_answer_checking :
    (∀ (qs : List Question) (q : Question) (r : StudentResponse) (s : String),
        lookupQuestion qs r.question_id = some q →
        r.selected_answer = some s → s ≠ "" →
        evalResponse qs r
          = { r with
              is_correct := some (checkAnswer q s)
              marks_obtained :=
                some (if checkAnswer q s then q.marks else -q.negative_marks) }) ∧
    (∀ (qs : List Question) (q : Question) (r : StudentResponse),
        lookupQuestion qs r.question_id = some q →
        truthyStr r.selected_answer = none →
        evalResponse qs r = { r with is_correct := none, marks_obtained := some 0 }) ∧
    (∀ (qs : List Question) (rs : List StudentResponse),
        (evaluateCore qs rs).1.attempted = (rs.filter (countsAttempted qs)).length) := by
  refine ⟨?_, ?_, ?_⟩
  · intro qs q r s hq hsel hne
    have htr : truthyStr r.selected_answer = some s := by
      rw [hsel]; simp [truthyStr, hne]
    unfold evalResponse
    rw [hq, htr]
  · intro qs q r hq htr
    unfold evalResponse
    rw [hq, htr]
  · intro qs rs
    have h := foldl_evalStep_attempted qs rs initAcc
    simpa [evaluateCore, initAcc] using h

/-- Witness for C5 (amended) at concrete responses: a truthy mismatching
answer is marked incorrect with `−negative_marks`, and a null answer is left
unattempted. -/
theorem C5_answer_checking_witness :
    evalResponse [evalSampleQ] evalSampleOrphanFix
      = { evalSampleOrphanFix with
          is_correct := some (checkAnswer evalSampleQ "b")
          marks_obtained :=
            some (if checkAnswer evalSampleQ "b" then evalSampleQ.marks
                  else -evalSampleQ.negative_marks) } ∧
    evalResponse [evalSampleQ] evalSampleNull
      = { evalSampleNull with is_correct := none, marks_obtained := some 0 } :=
  ⟨C5_answer_checking.1 [evalSampleQ] evalSampleQ evalSampleOrphanFix "b"
      (by decide) rfl (by decide),
   C5_answer_checking.2.1 [evalSampleQ] evalSampleQ evalSampleNull (by decide) rfl⟩

/-! ### Claim C1 -/

/-- The result returned by `_evaluate_paper` is the freshly built `Result`
row, up to the rank written back by `_calculate_ranks`. -/
theorem evaluatePaperDB_result_fields (db : DB) (exam : Exam) (paper : StudentExamPaper)
    (now : ℚ) (hno : ∀ r ∈ db.results, r.paper_id ≠ paper.id) :
    ∃ k : Option Nat, (evaluatePaperDB db exam paper now).1
      = { buildResult exam paper
            (evaluateCore db.questions
              (db.responses.filter (fun r => r.paper_id == paper.id))).1 now
          with rank := k } := by
  simp only [evaluatePaperDB]
  rcases hf : (((db.results
        ++ [buildResult exam paper
              (evaluateCore db.questions
                (db.responses.filter (fun r => r.paper_id == paper.id))).1 now]).filter
          (fun r => r.exam_id != exam.id))
      ++ calculateRanks
          ((db.results
            ++ [buildResult exam paper
                  (evaluateCore db.questions
                    (db.responses.filter (fun r => r.paper_id == paper.id))).1 now]).filter
            (fun r => r.exam_id == exam.id))).find?
        (fun r => r.paper_id == paper.id && r.exam_id == exam.id) with _ | x
  · rw [hf]
    exact ⟨none, rfl⟩
  · rw [hf]
    have hxp := List.find?_some hf
    have hxm := List.mem_of_find?_eq_some hf
    simp only [Bool.and_eq_true, beq_iff_eq] at hxp
    rcases List.mem_append.mp hxm with hx | hx
    · have := (List.mem_filter.mp hx).2
      simp only [bne_iff_ne, ne_eq] at this
      exact absurd hxp.2 this
    · unfold calculateRanks at hx
      obtain ⟨a, ha, kk, rfl⟩ := mem_assignRanksFrom hx
      have ham : a ∈ (db.results
          ++ [buildResult exam paper
                (evaluateCore db.questions
                  (db.responses.filter (fun r => r.paper_id == paper.id))).1 now]).filter
            (fun r => r.exam_id == exam.id) :=
        (List.perm_insertionSort rankLe _).mem_iff.mp ha
      have ham2 := (List.mem_filter.mp ham).1
      rcases List.mem_append.mp ham2 with hmem | hmem
      · exact absurd hxp.1 (hno a hmem)
      · have ha2 : a = buildResult exam paper
            (evaluateCore db.questions
              (db.responses.filter (fun r => r.paper_id == paper.id))).1 now := by
          simpa using hmem
        exact ⟨some kk, by rw [ha2]⟩

/-- C1 (amended): the created Result has `marks_obtained = max(0, T)` where
`T` is the raw (un-floored) total score of the paper's responses, but its
`percentage` and `is_passed` are computed from the pre-floor total `T`, not
from `marks_obtained`: `percentage = round2(T / exam.total_marks * 100)` when
`exam.total_marks > 0` (else `round2 0 = 0`) and
`is_passed = (T ≥ exam.passing_marks)`. -/
theorem C1_result_fields (db : DB) (exam : Exam) (paper : StudentExamPaper) (now : ℚ)
    (hno : ∀ r ∈ db.results, r.paper_id ≠ paper.id) :
    (evaluatePaperDB db exam paper now).1.marks_obtained
      = max 0 (rawScore db.questions
          (db.responses.filter (fun r => r.paper_id == paper.id))) ∧
    (evaluatePaperDB db exam paper now).1.percentage
      = round2 (if exam.total_marks > 0 then
          rawScore db.questions (db.responses.filter (fun r => r.paper_id == paper.id))
            / exam.total_marks * 100
          else 0) ∧
    (evaluatePaperDB db exam paper now).1.is_passed
      = decide (rawScore db.questions
          (db.responses.filter (fun r => r.paper_id == paper.id))
            ≥ exam.passing_marks) := by
  obtain ⟨k, hk⟩ := evaluatePaperDB_result_fields db exam paper now hno
  have hacc : (evaluateCore db.questions
      (db.responses.filter (fun r => r.paper_id == paper.id))).1.total_marks
      = rawScore db.questions (db.responses.filter (fun r => r.paper_id == paper.id)) := by
    have h := foldl_evalStep_total db.questions
      (db.responses.filter (fun r => r.paper_id == paper.id)) initAcc
    simpa [evaluateCore, initAcc] using h
  rw [hk]
  refine ⟨?_, ?_, ?_⟩
  · show (buildResult exam paper _ now).marks_obtained = _
    rw [buildResult, hacc]
  · show (buildResult exam paper _ now).percentage = _
    rw [buildResult, hacc]
  · show (buildResult exam paper _ now).is_passed = _
    rw [buildResult, hacc]

def c1exam : Exam :=
  { id := 5, total_questions := 1, duration_minutes := 60, total_marks := 10,
    passing_marks := 0, start_time := 0, end_time := 100, status := .active,
    max_attempts := 1 }

def c1paper : StudentExamPaper :=
  { id := 10, exam_id := 5, student_id := 7, paper_data := [], status := .submitted,
    attempt_number := 1, started_at := some 0, submitted_at := some 10,
    time_remaining_seconds := 0, last_activity_at := none }

def c1q : Question := ⟨1, "a", 1, 1, .easy⟩

def c1resp : StudentResponse := ⟨10, 1, some "b", false, none, none, none⟩

def c1db : DB := ⟨[c1paper], [c1resp], [], [c1q]⟩

/-- C1 is false as stated: with a single wrong answer under negative marking
(1 mark, −1), total 10, passing 0, the created Result has
`marks_obtained = 0` but `percentage = −10` — not
`round2(marks_obtained / total_marks * 100) = 0` — and `is_passed = false`
although `marks_obtained ≥ passing_marks` holds. -/
theorem C1_counterexample :
    (evaluatePaperDB c1db c1exam c1paper 10).1.marks_obtained = 0 ∧
    (evaluatePaperDB c1db c1exam c1paper 10).1.percentage = -10 ∧
    round2 ((evaluatePaperDB c1db c1exam c1paper 10).1.marks_obtained
      / c1exam.total_marks * 100) = 0 ∧
    (evaluatePaperDB c1db c1exam c1paper 10).1.is_passed = false ∧
    decide ((evaluatePaperDB c1db c1exam c1paper 10).1.marks_obtained
      ≥ c1exam.passing_marks) = true := by
  decide

/-- Witness for C1 (amended) at the concrete store above. -/
theorem C1_result_fields_witness :
    (evaluatePaperDB c1db c1exam c1paper 10).1.marks_obtained
      = max 0 (rawScore c1db.questions
          (c1db.responses.filter (fun r => r.paper_id == c1paper.id))) ∧
    (evaluatePaperDB c1db c1exam c1paper 10).1.percentage
      = round2 (if c1exam.total_marks > 0 then
          rawScore c1db.questions (c1db.responses.filter (fun r => r.paper_id == c1paper.id))
            / c1exam.total_marks * 100
          else 0) ∧
    (evaluatePaperDB c1db c1exam c1paper 10).1.is_passed
      = decide (rawScore c1db.questions
          (c1db.responses.filter (fun r => r.paper_id == c1paper.id))
            ≥ c1exam.passing_marks) :=
  C1_result_fields c1db c1exam c1paper 10 (by intro r hr; cases hr)

/-! ### Claims C2 and C9 -/

instance {ε α : Type} [DecidableEq ε] [DecidableEq α] : DecidableEq (Except ε α)
  | .ok a, .ok b =>
    if h : a = b then .isTrue (by rw [h])
    else .isFalse (by intro hh; cases hh; exact h rfl)
  | .ok _, .error _ => .isFalse (by intro hh; cases hh)
  | .error _, .ok _ => .isFalse (by intro hh; cases hh)
  | .error e, .error f =>
    if h : e = f then .isTrue (by rw [h])
    else .isFalse (by intro hh; cases hh; exact h rfl)

theorem validate_ok {exam e' : Exam} {now : ℚ}
    (h : validateExamAvailable exam now = .ok e') : e' = advanceExamStatus exam now := by
  unfold validateExamAvailable validateWindow at h
  split at h
  · cases h
  · split at h
    · cases h
    · split at h
      · cases h
      · exact (Except.ok.injEq _ _).mp h.symm

theorem advanceExamStatus_id (exam : Exam) (now : ℚ) :
    (advanceExamStatus exam now).id = exam.id := by
  unfold advanceExamStatus
  split <;> (try split) <;> (try split) <;> rfl

theorem advanceExamStatus_max_attempts (exam : Exam) (now : ℚ) :
    (advanceExamStatus exam now).max_attempts = exam.max_attempts := by
  unfold advanceExamStatus
  split <;> (try split) <;> (try split) <;> rfl

/-- C2: when the latest paper for (exam, student) exists and is not terminal,
paper generation returns exactly that paper and leaves the store untouched —
for every output of the randomness oracle — so the frozen question order and
per-question option order in `paper_data` are identical on every access and no
regeneration ever occurs for a non-terminal paper. -/
theorem C2_idempotent_generation (db : DB) (exam e' : Exam) (sid : Nat) (now : ℚ)
    (p : StudentExamPaper)
    (hv : validateExamAvailable exam now = .ok e')
    (hp : getExistingPaper db exam.id sid = some p)
    (hnt : isTerminal p.status = false) :
    ∀ (freshData : List PaperQ) (freshId : Nat),
      generatePaper db exam sid now freshData freshId = .ok (p, db) := by
  intro fd fid
  have hid : e'.id = exam.id := by
    rw [validate_ok hv]; exact advanceExamStatus_id exam now
  simp only [generatePaper, hv, hid, hp, hnt]
  simp

def c2exam : Exam :=
  { id := 5, total_questions := 1, duration_minutes := 60, total_marks := 10,
    passing_marks := 5, start_time := 0, end_time := 100, status := .active,
    max_attempts := 1 }

def c2paper : StudentExamPaper :=
  { id := 1, exam_id := 5, student_id := 7, paper_data := [⟨1, ["A", "B"]⟩],
    status := .inProgress, attempt_number := 1, started_at := some 0,
    submitted_at := none, time_remaining_seconds := 3600, last_activity_at := none }

def c2db : DB := ⟨[c2paper], [], [], []⟩

/-- Witness for C2: a second generation call with a fresh randomness draw
returns the stored paper unchanged. -/
theorem C2_idempotent_generation_witness :
    generatePaper c2db c2exam 7 50 [⟨9, ["X"]⟩] 99 = .ok (c2paper, c2db) :=
  C2_idempotent_generation c2db c2exam c2exam 7 50 c2paper (by decide) (by decide)
    (by decide) [⟨9, ["X"]⟩] 99

/-- C9: when the latest paper for (exam, student) is terminal, generation
counts the student's prior attempts; it fails with the attempts-exhausted
error when the count has reached `max_attempts` (with `max_attempts = 1` a
single terminal paper makes every further start fail), and otherwise creates a
new NOT_STARTED paper whose `attempt_number` is the count plus one. -/
theorem C9_attempt_limit (db : DB) (exam e' : Exam) (sid : Nat) (now : ℚ)
    (p : StudentExamPaper)
    (hv : validateExamAvailable exam now = .ok e')
    (hp : getExistingPaper db exam.id sid = some p)
    (ht : isTerminal p.status = true) :
    (exam.max_attempts ≤ attemptCount db exam.id sid →
      ∀ (fd : List PaperQ) (fid : Nat),
        generatePaper db exam sid now fd fid = .error .maxAttemptsReached) ∧
    (attemptCount db exam.id sid < exam.max_attempts →
      ∀ (fd : List PaperQ) (fid : Nat),
        generatePaper db exam sid now fd fid
          = .ok (createPaper db e' sid fd fid (attemptCount db exam.id sid)) ∧
        (createPaper db e' sid fd fid (attemptCount db exam.id sid)).1.attempt_number
          = attemptCount db exam.id sid + 1 ∧
        (createPaper db e' sid fd fid (attemptCount db exam.id sid)).1.status
          = .notStarted) := by
  have hid : e'.id = exam.id := by
    rw [validate_ok hv]; exact advanceExamStatus_id exam now
  have hmax : e'.max_attempts = exam.max_attempts := by
    rw [validate_ok hv]; exact advanceExamStatus_max_attempts exam now
  constructor
  · intro hle fd fid
    simp only [generatePaper, hv, hid, hp, ht, if_true]
    rw [hmax, if_pos hle]
  · intro hlt fd fid
    refine ⟨?_, rfl, rfl⟩
    simp only [generatePaper, hv, hid, hp, ht, if_true]
    rw [hmax, if_neg (not_le.mpr hlt)]

def c9paper : StudentExamPaper :=
  { id := 1, exam_id := 5, student_id := 7, paper_data := [⟨1, ["A", "B"]⟩],
    status := .evaluated, attempt_number := 1, started_at := some 0,
    submitted_at := some 10, time_remaining_seconds := 0, last_activity_at := none }

def c9db : DB := ⟨[c9paper], [], [], []⟩

/-- Witness for C9: with `max_attempts = 1` and one evaluated paper, a new
start attempt fails with the attempts-exhausted error. -/
theorem C9_attempt_limit_witness :
    generatePaper c9db c2exam 7 50 [] 99 = .error .maxAttemptsReached :=
  (C9_attempt_limit c9db c2exam c2exam 7 50 c9paper (by decide) (by decide)
    (by decide)).1 (by decide) [] 99

/-! ### Claims C6 and C7 -/

/-- C6 (amended): re-invoking submission on a terminal paper never creates a
second Result — but the two paths differ: manual submit fails with the
already-submitted error rather than returning the existing Result, while
auto-submit returns the existing Result (and leaves the store unchanged). -/
theorem C6_resubmit_safety (db : DB) (exam : Exam) (sid : Nat) (now : ℚ)
    (p : StudentExamPaper)
    (hp : getExistingPaper db exam.id sid = some p)
    (ht : isTerminal p.status = true) :
    submitExam db exam sid now = .error .alreadySubmitted ∧
    (∀ r : Result, getResult db p.id = some r →
      autoSubmit db exam sid now = .ok (.resultView r, db)) := by
  constructor
  · simp only [submitExam, getActivePaper, hp, ht, if_true]
  · intro r hr
    simp only [autoSubmit, hp, ht, if_true, hr]

def c6paper : StudentExamPaper :=
  { id := 1, exam_id := 5, student_id := 7, paper_data := [], status := .evaluated,
    attempt_number := 1, started_at := some 0, submitted_at := some 10,
    time_remaining_seconds := 0, last_activity_at := none }

def c6result : Result :=
  { exam_id := 5, student_id := 7, paper_id := 1, total_questions := 1, attempted := 1,
    correct := 1, wrong := 0, total_marks := 10, marks_obtained := 5, percentage := 50,
    is_passed := true, rank := some 1,
    difficulty_wise_score := ⟨⟨0, 0, 0⟩, ⟨0, 0, 0⟩, ⟨0, 0, 0⟩⟩, evaluated_at := 10 }

def c6db : DB := ⟨[c6paper], [], [c6result], []⟩

/-- C6 is false as stated: on an EVALUATED paper whose Result exists, manual
submit does not return the existing Result — it fails with the
already-submitted error. -/
theorem C6_counterexample :
    getResult c6db c6paper.id = some c6result ∧
    submitExam c6db c2exam 7 50 = .error .alreadySubmitted := by
  decide

/-- Witness for C6 (amended) at the concrete store above: auto-submit returns
the stored Result unchanged while manual submit errors. -/
theorem C6_resubmit_safety_witness :
    submitExam c6db c2exam 7 50 = .error .alreadySubmitted ∧
    autoSubmit c6db c2exam 7 50 = .ok (.resultView c6result, c6db) :=
  ⟨(C6_resubmit_safety c6db c2exam 7 50 c6paper (by decide) (by decide)).1,
   (C6_resubmit_safety c6db c2exam 7 50 c6paper (by decide) (by decide)).2
     c6result (by decide)⟩

/-- C7 (amended): manual submit succeeds from any non-terminal state —
NOT_STARTED as well as IN_PROGRESS — without consulting the timer; it marks
the paper SUBMITTED with `submitted_at = now` and evaluates it (final persisted
status EVALUATED); on a terminal paper it fails with the already-submitted
error. -/
theorem C7_manual_submit (db : DB) (exam : Exam) (sid : Nat) (now : ℚ)
    (p : StudentExamPaper)
    (hp : getExistingPaper db exam.id sid = some p) :
    (isTerminal p.status = true →
      submitExam db exam sid now = .error .alreadySubmitted) ∧
    (isTerminal p.status = false →
      ∃ (res : Result) (db' : DB), submitExam db exam sid now = .ok (res, db') ∧
        db'.papers.find? (fun q => q.id == p.id)
          = some { p with status := .evaluated, submitted_at := some now }) := by
  constructor
  · intro ht
    simp only [submitExam, getActivePaper, hp, ht, if_true]
  · intro hnt
    have hsub : submitExam db exam sid now
        = .ok (evaluatePaperDB
            (dbUpdatePaper db { p with status := .submitted, submitted_at := some now })
            exam { p with status := .submitted, submitted_at := some now } now) := by
      simp only [submitExam, getActivePaper, hp, hnt]
      simp
    refine ⟨_, _, hsub, ?_⟩
    show ((db.papers.map (fun q =>
        if q.id == p.id
        then ({ p with status := .submitted, submitted_at := some now } : StudentExamPaper)
        else q)).map (fun q =>
          if q.id == ({ p with status := .submitted, submitted_at := some now }
              : StudentExamPaper).id
          then ({ p with status := .evaluated, submitted_at := some now }
              : StudentExamPaper)
          else q)).find? (fun q => q.id == p.id)
      = some { p with status := .evaluated, submitted_at := some now }
    rw [map_replace_compose db.papers p
      { p with status := .submitted, submitted_at := some now }
      { p with status := .evaluated, submitted_at := some now } rfl]
    exact find_replace (getExistingPaper_mem hp).1 rfl

def c7paper : StudentExamPaper :=
  { id := 1, exam_id := 5, student_id := 7, paper_data := [], status := .notStarted,
    attempt_number := 1, started_at := none, submitted_at := none,
    time_remaining_seconds := 3600, last_activity_at := none }

def c7db : DB := ⟨[c7paper], [], [], []⟩

/-- C7 is false as stated: a NOT_STARTED paper — never IN_PROGRESS and never
run through the timer — is accepted by manual submit, which produces a
SUBMITTED-then-EVALUATED paper. -/
theorem C7_counterexample :
    c7paper.status = .notStarted ∧
    (submitExam c7db c2exam 7 50).toOption.map
        (fun x => x.2.papers.map (fun q => q.status))
      = some [.evaluated] := by
  decide

/-- Witness for C7 (amended): the same NOT_STARTED store, through the amended
theorem. -/
theorem C7_manual_submit_witness :
    ∃ (res : Result) (db' : DB), submitExam c7db c2exam 7 50 = .ok (res, db') ∧
      db'.papers.find? (fun q => q.id == c7paper.id)
        = some { c7paper with status := .evaluated, submitted_at := some 50 } :=
  (C7_manual_submit c7db c2exam 7 50 c7paper (by decide)).2 (by decide)

/-! ### Claim C4 -/

/-- The row written by the expiry path before evaluation. -/
def autoSubmittedPaper (p : StudentExamPaper) (now : ℚ) : StudentExamPaper :=
  { p with status := .autoSubmitted, submitted_at := some now, time_remaining_seconds := 0 }

/-- Behaviour of `auto_submit` on a non-terminal latest paper: it returns the
evaluation result, and the persisted row of that paper ends EVALUATED with
`submitted_at = now` and zero time remaining. -/
theorem autoSubmit_spec (db : DB) (exam : Exam) (sid : Nat) (now : ℚ)
    (p : StudentExamPaper)
    (hp : getExistingPaper db exam.id sid = some p)
    (hnt : isTerminal p.status = false) :
    autoSubmit db exam sid now
      = .ok (.resultView
          (evaluatePaperDB (dbUpdatePaper db (autoSubmittedPaper p now)) exam
            (autoSubmittedPaper p now) now).1,
          (evaluatePaperDB (dbUpdatePaper db (autoSubmittedPaper p now)) exam
            (autoSubmittedPaper p now) now).2) ∧
    ((evaluatePaperDB (dbUpdatePaper db (autoSubmittedPaper p now)) exam
        (autoSubmittedPaper p now) now).2).papers.find? (fun q => q.id == p.id)
      = some { p with
          status := .evaluated
          submitted_at := some now
          time_remaining_seconds := 0 } := by
  constructor
  · simp only [autoSubmit, hp, hnt, autoSubmittedPaper]
    simp
  · show ((db.papers.map (fun q =>
        if q.id == p.id then autoSubmittedPaper p now else q)).map (fun q =>
          if q.id == (autoSubmittedPaper p now).id
          then ({ p with
                  status := .evaluated
                  submitted_at := some now
                  time_remaining_seconds := 0 } : StudentExamPaper)
          else q)).find? (fun q => q.id == p.id)
      = some { p with
          status := .evaluated
          submitted_at := some now
          time_remaining_seconds := 0 }
    rw [map_replace_compose db.papers p (autoSubmittedPaper p now)
      { p with
        status := .evaluated
        submitted_at := some now
        time_remaining_seconds := 0 } rfl]
    exact find_replace (getExistingPaper_mem hp).1 rfl

theorem updateTimeRemaining_eq {exam : Exam} {p : StudentExamPaper} {st : ℚ} (now : ℚ)
    (hs : p.status = .inProgress) (hst : p.started_at = some st) :
    updateTimeRemaining p exam now
      = { p with
          time_remaining_seconds :=
            max 0 (pyInt ((exam.duration_minutes : ℚ) * 60 - (now - st))) } := by
  unfold updateTimeRemaining
  rw [hst]
  simp [hs]

/-- C4: every operation that recomputes the timer — resume (`get_paper`),
`save_answer` and `save_all_answers` — and finds zero remaining time on an
IN_PROGRESS paper runs the auto-submit path before returning: the caller gets
a post-submission outcome (a result view, or the auto-submitted save status)
and the persisted paper ends EVALUATED with `submitted_at = now` and
`time_remaining_seconds = 0`, never a stale IN_PROGRESS. -/
theorem C4_expiry_auto_submit (db : DB) (exam : Exam) (sid : Nat) (now st : ℚ)
    (p : StudentExamPaper)
    (hp : getExistingPaper db exam.id sid = some p)
    (hkey : ∀ q ∈ db.papers, q.id = p.id → q = p)
    (hs : p.status = .inProgress)
    (hst : p.started_at = some st)
    (hexp : pyInt ((exam.duration_minutes : ℚ) * 60 - (now - st)) ≤ 0) :
    (∃ (res : Result) (db' : DB),
        getPaper db exam sid now = .ok (.resultView res, db') ∧
        db'.papers.find? (fun q => q.id == p.id)
          = some { p with
              status := .evaluated
              submitted_at := some now
              time_remaining_seconds := 0 }) ∧
    (∀ (qid : Nat) (ans : Option String) (review : Bool),
        ∃ db' : DB,
          saveAnswer db exam sid now qid ans review = .ok (.autoSubmitted, db') ∧
          db'.papers.find? (fun q => q.id == p.id)
            = some { p with
                status := .evaluated
                submitted_at := some now
                time_remaining_seconds := 0 }) ∧
    (∀ answers : List AnswerIn,
        ∃ db' : DB,
          saveAllAnswers db exam sid now answers = .ok (.autoSubmitted, db') ∧
          db'.papers.find? (fun q => q.id == p.id)
            = some { p with
                status := .evaluated
                submitted_at := some now
                time_remaining_seconds := 0 }) := by
  have hterm : isTerminal p.status = false := by rw [hs]; rfl
  have hupd : updateTimeRemaining p exam now
      = { p with time_remaining_seconds := 0 } := by
    rw [updateTimeRemaining_eq now hs hst, max_eq_left hexp]
  have hp1 : getExistingPaper
      (dbUpdatePaper db { p with time_remaining_seconds := 0 }) exam.id sid
      = some { p with time_remaining_seconds := 0 } :=
    getExistingPaper_update hp hkey rfl rfl rfl rfl
  have hspec := autoSubmit_spec (dbUpdatePaper db { p with time_remaining_seconds := 0 })
    exam sid now { p with time_remaining_seconds := 0 } hp1 hterm
  obtain ⟨hAS, hfind⟩ := hspec
  refine ⟨?_, ?_, ?_⟩
  · have hg : getPaper db exam sid now
        = autoSubmit (dbUpdatePaper db { p with time_remaining_seconds := 0 })
            exam sid now := by
      simp only [getPaper, hp, hterm, hupd]
      simp
    exact ⟨_, _, by rw [hg, hAS], hfind⟩
  · intro qid ans review
    have hsa : saveAnswer db exam sid now qid ans review
        = .ok (.autoSubmitted,
            (evaluatePaperDB
              (dbUpdatePaper (dbUpdatePaper db { p with time_remaining_seconds := 0 })
                (autoSubmittedPaper { p with time_remaining_seconds := 0 } now))
              exam (autoSubmittedPaper { p with time_remaining_seconds := 0 } now)
              now).2) := by
      simp only [saveAnswer, getActivePaper, hp, hterm, Bool.false_eq_true, if_false,
        hupd, hAS]
      simp
    exact ⟨_, hsa, hfind⟩
  · intro answers
    have hsa : saveAllAnswers db exam sid now answers
        = .ok (.autoSubmitted,
            (evaluatePaperDB
              (dbUpdatePaper (dbUpdatePaper db { p with time_remaining_seconds := 0 })
                (autoSubmittedPaper { p with time_remaining_seconds := 0 } now))
              exam (autoSubmittedPaper { p with time_remaining_seconds := 0 } now)
              now).2) := by
      simp only [saveAllAnswers, getActivePaper, hp, hterm, Bool.false_eq_true, if_false,
        hupd, hAS]
      simp
    exact ⟨_, hsa, hfind⟩

def c4exam : Exam :=
  { id := 5, total_questions := 0, duration_minutes := 1, total_marks := 10,
    passing_marks := 5, start_time := 0, end_time := 1000, status := .active,
    max_attempts := 1 }

def c4paper : StudentExamPaper :=
  { id := 1, exam_id := 5, student_id := 7, paper_data := [], status := .inProgress,
    attempt_number := 1, started_at := some 0, submitted_at := none,
    time_remaining_seconds := 60, last_activity_at := none }

def c4db : DB := ⟨[c4paper], [], [], []⟩

/-- Witness for C4: a one-minute paper started at 0 and resumed or saved at
`now = 120` is auto-submitted and ends EVALUATED. -/
theorem C4_expiry_auto_submit_witness :
    (∃ (res : Result) (db' : DB),
        getPaper c4db c4exam 7 120 = .ok (.resultView res, db') ∧
        db'.papers.find? (fun q => q.id == c4paper.id)
          = some { c4paper with
              status := .evaluated
              submitted_at := some 120
              time_remaining_seconds := 0 }) ∧
    (∃ db' : DB,
        saveAnswer c4db c4exam 7 120 3 (some "A") false = .ok (.autoSubmitted, db') ∧
        db'.papers.find? (fun q => q.id == c4paper.id)
          = some { c4paper with
              status := .evaluated
              submitted_at := some 120
              time_remaining_seconds := 0 }) ∧
    (∃ db' : DB,
        saveAllAnswers c4db c4exam 7 120 [] = .ok (.autoSubmitted, db') ∧
        db'.papers.find? (fun q => q.id == c4paper.id)
          = some { c4paper with
              status := .evaluated
              submitted_at := some 120
              time_remaining_seconds := 0 }) :=
  ⟨(C4_expiry_auto_submit c4db c4exam 7 120 0 c4paper (by decide) (by decide) rfl rfl
      (by decide)).1,
   (C4_expiry_auto_submit c4db c4exam 7 120 0 c4paper (by decide) (by decide) rfl rfl
      (by decide)).2.1 3 (some "A") false,
   (C4_expiry_auto_submit c4db c4exam 7 120 0 c4paper (by decide) (by decide) rfl rfl
      (by decide)).2.2 []⟩

end ExamEngine
